import Mathlib

/-!
Shallow embedding of the pre-commit-hooks repository's cppcheck wrapper
(`hooks/cppcheck.py`) and its table-driven test harness
(`tests/test_hooks.py`), used to verify the natural-language specification
against the code.

External inputs (installed tool versions, the working directory, the
platform, the JSON integration-test table, raw subprocess output) are
parameters of the corresponding definitions.  Python strings are modelled
as `String`, Python bytes outputs as `String` (all fixture outputs are
ASCII), exit codes as `Nat`.
-/

namespace PreCommitHooks

/-! ## String utilities mirroring Python primitives -/

/-- Python string comparison `a < b` (lexicographic by code point),
used for the version-string comparisons in the test generator. -/
def pyCharListLt : List Char → List Char → Bool
  | _, [] => false
  | [], _ :: _ => true
  | a :: as, b :: bs =>
    if a < b then true
    else if b < a then false
    else pyCharListLt as bs

/-- Python `a < b` on strings. -/
def pyStrLt (a b : String) : Bool := pyCharListLt a.data b.data

/-- Python `a <= b` on strings. -/
def pyStrLe (a b : String) : Bool := pyStrLt a b || a == b

/-- `needle` occurs at the start of `hay` (Python `hay.startswith(needle)`),
on character lists. -/
def charListIsPfx : List Char → List Char → Bool
  | [], _ => true
  | _ :: _, [] => false
  | a :: as, b :: bs => a == b && charListIsPfx as bs

/-- `needle` occurs somewhere in `hay` (Python `needle in hay` on strings),
on character lists. -/
def charListHasSub (needle : List Char) : List Char → Bool
  | [] => charListIsPfx needle []
  | c :: rest => charListIsPfx needle (c :: rest) || charListHasSub needle rest

/-- Python substring test `needle in hay`. -/
def strContains (hay needle : String) : Bool :=
  charListHasSub needle.data hay.data

/-- Python `s.endswith(suffix)`. -/
def strEndsWith (s suffix : String) : Bool :=
  List.isSuffixOf suffix.data s.data

/-- Python `list.index`-based single replacement used by the test
generator: replace the first occurrence of `old` in the list by `new`. -/
def replaceFirst : List String → String → String → List String
  | [], _, _ => []
  | a :: as, old, new =>
    if a == old then new :: as else a :: replaceFirst as old new

/-- Python `s.replace(old, new)` on character lists (replace every
non-overlapping occurrence, scanning left to right), with explicit fuel. -/
def replaceAllAux (old new : List Char) : Nat → List Char → List Char
  | 0, l => l
  | _ + 1, [] => []
  | fuel + 1, c :: rest =>
    if old ≠ [] ∧ charListIsPfx old (c :: rest) = true then
      new ++ replaceAllAux old new fuel (List.drop old.length (c :: rest))
    else
      c :: replaceAllAux old new fuel rest

/-- Python `s.replace(old, new)` for a non-empty `old`. -/
def strReplaceAll (s old new : String) : String :=
  ⟨replaceAllAux old.data new.data s.data.length s.data⟩

/-! ## Data model of the harness -/

/-- The command classes imported by `tests/test_hooks.py` (one per hook
wrapper module). -/
inductive CmdClass where
  | clang_format
  | clang_tidy
  | cppcheck
  | cpplint
  | include_what_you_use
  | oclint
  | uncrustify
deriving DecidableEq, Repr

/-- Modelled from the spec: the `command` class attribute of each wrapper
(defined in the per-hook modules, of which only `hooks/cppcheck.py` is in
the sources); the names are the tool identifiers used as hook ids
(`clang-format`, `clang-tidy`, `cppcheck`, `cpplint`,
`include-what-you-use`, `oclint`, `uncrustify`).  `CppcheckCmd.command`
is `"cppcheck"` in the available source. -/
def CmdClass.command : CmdClass → String
  | .clang_format => "clang-format"
  | .clang_tidy => "clang-tidy"
  | .cppcheck => "cppcheck"
  | .cpplint => "cpplint"
  | .include_what_you_use => "include-what-you-use"
  | .oclint => "oclint"
  | .uncrustify => "uncrustify"

/-- One generated table-test scenario, as built by `GeneratorT`:
`[command class, args, files, expected output, expected return code]`. -/
structure Scenario where
  cls : CmdClass
  args : List String
  files : List String
  expd_output : String
  expd_retcode : Nat
deriving DecidableEq, Repr

/-- The installed tool versions returned by `tests.test_utils.get_versions()`
(external input of the generator). -/
structure Versions where
  cppcheck : String
  oclint : String
deriving DecidableEq, Repr

/-! ## Fixture paths (`GeneratorT.generate_list_tests`, posix join) -/

/-- `os.path.join(os.getcwd(), "tests", "test_repo")`. -/
def test_repo_dir (cwd : String) : String := cwd ++ "/tests/test_repo"

/-- `os.path.join(test_repo_dir, "err.c")`. -/
def err_c (cwd : String) : String := test_repo_dir cwd ++ "/err.c"

/-- `os.path.join(test_repo_dir, "err.cpp")`. -/
def err_cpp (cwd : String) : String := test_repo_dir cwd ++ "/err.cpp"

/-- `os.path.join(test_repo_dir, "ok.c")`. -/
def ok_c (cwd : String) : String := test_repo_dir cwd ++ "/ok.c"

/-- `os.path.join(test_repo_dir, "ok.cpp")`. -/
def ok_cpp (cwd : String) : String := test_repo_dir cwd ++ "/ok.cpp"

/-- `os.path.join(os.getcwd(), "tests", "uncrustify_defaults.cfg")`. -/
def uncrustify_defaults_path (cwd : String) : String :=
  cwd ++ "/tests/uncrustify_defaults.cfg"

/-- A target file is one of the two clean fixture files. -/
def isClean (cwd f : String) : Prop := f = ok_c cwd ∨ f = ok_cpp cwd

/-- A target file is one of the two flawed fixture files. -/
def isFlawed (cwd f : String) : Prop := f = err_c cwd ∨ f = err_cpp cwd

/-! ## Scenario generators (`GeneratorT`)

Each generator iterates `for i in range(len(cls.files))` over the fixed
four-element fixture list `[ok.c, ok.cpp, err.c, err.cpp]` with return
codes `[0, 0, 1, 1]` and the per-tool expected-output list; the loops are
unrolled here (the index ranges are literal), keeping the per-element
computations as functions. -/

namespace GeneratorT

/-- The `clang_format_err` template of `generate_formatter_tests`,
with `{0}` the file name and `{1}` the include. -/
def clang_format_err (fname inc : String) : String :=
  fname ++
  "\n====================\n--- original\n\n+++ formatted\n\n@@ -1,2 +1,5 @@\n\n #include " ++
  inc ++
  "\n-int main()\x7bint i;return;\x7d\n+int main() \x7b\n+  int i;\n+  return;\n+\x7d\n"

/-- `GeneratorT.generate_formatter_tests`: tests for both uncrustify and
clang-format; both use the same expected-output list
`[b"", b"", formatter_c_err, formatter_cpp_err]` and return codes
`[0, 0, 1, 1]`.  The clang-format argument sets are
`[["--style=google"], ["--style=google", "-i"]]` and the uncrustify ones
are `["-c", unc_defaults_path] + arg` for `arg` in
`[[], ["--replace", "--no-backup"]]`; per fixture file the two
clang-format scenarios come first, then the two uncrustify ones. -/
def generate_formatter_tests (cwd : String) : List Scenario :=
  let formatter_c_err := clang_format_err (err_c cwd) "<stdio.h>"
  let formatter_cpp_err := clang_format_err (err_cpp cwd) "<string>"
  let unc_base_args := ["-c", uncrustify_defaults_path cwd]
  [ ⟨.clang_format, ["--style=google"], [ok_c cwd], "", 0⟩,
    ⟨.clang_format, ["--style=google", "-i"], [ok_c cwd], "", 0⟩,
    ⟨.uncrustify, unc_base_args, [ok_c cwd], "", 0⟩,
    ⟨.uncrustify, unc_base_args ++ ["--replace", "--no-backup"], [ok_c cwd], "", 0⟩,
    ⟨.clang_format, ["--style=google"], [ok_cpp cwd], "", 0⟩,
    ⟨.clang_format, ["--style=google", "-i"], [ok_cpp cwd], "", 0⟩,
    ⟨.uncrustify, unc_base_args, [ok_cpp cwd], "", 0⟩,
    ⟨.uncrustify, unc_base_args ++ ["--replace", "--no-backup"], [ok_cpp cwd], "", 0⟩,
    ⟨.clang_format, ["--style=google"], [err_c cwd], formatter_c_err, 1⟩,
    ⟨.clang_format, ["--style=google", "-i"], [err_c cwd], formatter_c_err, 1⟩,
    ⟨.uncrustify, unc_base_args, [err_c cwd], formatter_c_err, 1⟩,
    ⟨.uncrustify, unc_base_args ++ ["--replace", "--no-backup"], [err_c cwd], formatter_c_err, 1⟩,
    ⟨.clang_format, ["--style=google"], [err_cpp cwd], formatter_cpp_err, 1⟩,
    ⟨.clang_format, ["--style=google", "-i"], [err_cpp cwd], formatter_cpp_err, 1⟩,
    ⟨.uncrustify, unc_base_args, [err_cpp cwd], formatter_cpp_err, 1⟩,
    ⟨.uncrustify, unc_base_args ++ ["--replace", "--no-backup"], [err_cpp cwd], formatter_cpp_err, 1⟩ ]

/-- `GeneratorT.get_multifile_scenarios_no_diff`: two scenarios running
clang-format and uncrustify over `err_files` with `--no-diff`, each with
expected output `b""` and expected return code 1. -/
def get_multifile_scenarios_no_diff (cwd : String) (err_files : List String) :
    List Scenario :=
  [ ⟨.clang_format, ["--style=google", "--no-diff"], err_files, "", 1⟩,
    ⟨.uncrustify, ["-c", uncrustify_defaults_path cwd, "--no-diff"], err_files, "", 1⟩ ]

/-- The per-scenario argument adjustment of `generate_clang_tidy_tests`
(also used by `generate_oclint_tests`): for a `.cpp` target containing
`-std=c18` in the argument set, replace it by `-std=c++20`. -/
def cpp_std_args (file : String) (arg_set : List String) : List String :=
  if strEndsWith file ".cpp" && arg_set.contains "-std=c18" then
    replaceFirst arg_set "-std=c18" "-std=c++20"
  else arg_set

/-- The `clang_tidy_err_str` template with `{0}` the file name. -/
def clang_tidy_err_str (f : String) : String :=
  f ++
  ":2:18: error: non-void function \x27main\x27 should return a value [clang-diagnostic-return-type]\nint main()\x7bint i;return;\x7d\n                 ^\n1 error generated.\nError while processing " ++
  f ++ ".\n"

/-- The clang-tidy argument sets `ct_base_args + arg` for `arg` in
`[[], ["-fix"], ["--fix-errors"], ["--", "-std=c18"]]`. -/
def clang_tidy_args_sets : List (List String) :=
  [ ["-quiet", "-checks=clang-diagnostic-return-type"],
    ["-quiet", "-checks=clang-diagnostic-return-type", "-fix"],
    ["-quiet", "-checks=clang-diagnostic-return-type", "--fix-errors"],
    ["-quiet", "-checks=clang-diagnostic-return-type", "--", "-std=c18"] ]

/-- `GeneratorT.generate_clang_tidy_tests`: 4 fixture files × 4 argument
sets, expected outputs `[b"", b"", clang_tidy_str_c, clang_tidy_str_cpp]`
and return codes `[0, 0, 1, 1]`. -/
def generate_clang_tidy_tests (cwd : String) : List Scenario :=
  (clang_tidy_args_sets.map fun a =>
    Scenario.mk .clang_tidy (cpp_std_args (ok_c cwd) a) [ok_c cwd] "" 0) ++
  (clang_tidy_args_sets.map fun a =>
    Scenario.mk .clang_tidy (cpp_std_args (ok_cpp cwd) a) [ok_cpp cwd] "" 0) ++
  (clang_tidy_args_sets.map fun a =>
    Scenario.mk .clang_tidy (cpp_std_args (err_c cwd) a) [err_c cwd]
      (clang_tidy_err_str (err_c cwd)) 1) ++
  (clang_tidy_args_sets.map fun a =>
    Scenario.mk .clang_tidy (cpp_std_args (err_cpp cwd) a) [err_cpp cwd]
      (clang_tidy_err_str (err_cpp cwd)) 1)

/-- The cppcheck expected-error template for versions `<= "1.88"`. -/
def cppcheck_err_old (f : String) : String :=
  "[" ++ f ++ ":1]: (style) Unused variable: i\n"

/-- The cppcheck expected-error template for versions `>= "1.89"`. -/
def cppcheck_err_new (f : String) : String :=
  f ++
  ":2:16: style: Unused variable: i [unusedVariable]\nint main()\x7bint i;return;\x7d\n               ^\n"

/-- The error with which `generate_cppcheck_tests` aborts when the
installed cppcheck version string falls in neither bucket: the source
then stores the bytes literal `b""` in `cppcheck_err` (after printing a
maintenance message), and the following `cppcheck_err.format(cls.err_c)`
call raises, since Python 3 `bytes` has no `format` method. -/
def cppcheck_version_error : String :=
  "AttributeError: \x27bytes\x27 object has no attribute \x27format\x27"

/-- `GeneratorT.generate_cppcheck_tests`: selects the expected-output
template by comparing the installed cppcheck version string against
`"1.88"`/`"1.89"`; with a classified version it yields 4 scenarios (one
argument set `[]`, expected outputs `[b"", b"", err_c, err_cpp]`, return
codes `[0, 0, 1, 1]`); with an unclassifiable version the template slot
holds `b""` and the subsequent `.format` call raises (modelled as
`Except.error`). -/
def generate_cppcheck_tests (cppcheck_version cwd : String) :
    Except String (List Scenario) :=
  let tmpl : Except String (String → String) :=
    if pyStrLe cppcheck_version "1.88" then .ok cppcheck_err_old
    else if pyStrLe "1.89" cppcheck_version then .ok cppcheck_err_new
    else .error cppcheck_version_error
  tmpl.map fun cppcheck_err =>
    [ ⟨.cppcheck, [], [ok_c cwd], "", 0⟩,
      ⟨.cppcheck, [], [ok_cpp cwd], "", 0⟩,
      ⟨.cppcheck, [], [err_c cwd], cppcheck_err (err_c cwd), 1⟩,
      ⟨.cppcheck, [], [err_cpp cwd], cppcheck_err (err_cpp cwd), 1⟩ ]

/-- The `cpplint_err_str` template with `{0}` the file name. -/
def cpplint_err_str (f : String) : String :=
  "Done processing " ++ f ++
  "\nTotal errors found: 5\n" ++ f ++
  ":0:  No copyright message found.  You should have a line: \"Copyright [year] <Copyright Owner>\"  [legal/copyright] [5]\n" ++ f ++
  ":2:  More than one command on the same line  [whitespace/newline] [0]\n" ++ f ++
  ":2:  Missing space after ;  [whitespace/semicolon] [3]\n" ++ f ++
  ":2:  Missing space before \x7b  [whitespace/braces] [5]\n" ++ f ++
  ":2:  Could not find a newline character at the end of the file.  [whitespace/ending_newline] [5]\n"

/-- `GeneratorT.generate_cpplint_tests`: one argument set
`["--verbose=0", "--quiet"]`, expected outputs
`[b"", b"", cpplint_err_c, cpplint_err_cpp]`, return codes `[0, 0, 1, 1]`. -/
def generate_cpplint_tests (cwd : String) : List Scenario :=
  [ ⟨.cpplint, ["--verbose=0", "--quiet"], [ok_c cwd], "", 0⟩,
    ⟨.cpplint, ["--verbose=0", "--quiet"], [ok_cpp cwd], "", 0⟩,
    ⟨.cpplint, ["--verbose=0", "--quiet"], [err_c cwd], cpplint_err_str (err_c cwd), 1⟩,
    ⟨.cpplint, ["--verbose=0", "--quiet"], [err_cpp cwd], cpplint_err_str (err_cpp cwd), 1⟩ ]

/-- The `iwyu_err_c` expected output (template with `{0} = err_c` and the
`<stdio.h>` include). -/
def iwyu_err (f inc : String) : String :=
  f ++
  ":2:18: error: non-void function \x27main\x27 should return a value [-Wreturn-type]\nint main()\x7bint i;return;\x7d\n                 ^\n\n" ++
  f ++ " should add these lines:\n\n" ++
  f ++ " should remove these lines:\n- #include " ++ inc ++
  "  // lines 1-1\n\nThe full include-list for " ++ f ++ ":\n---\n"

/-- `GeneratorT.generate_iwyu_tests`: one empty argument set, expected
outputs `[b"", b"", iwyu_err_c, iwyu_err_cpp]` and the tool-native return
codes `iwyu_retcodes = [0, 0, 3, 3]`. -/
def generate_iwyu_tests (cwd : String) : List Scenario :=
  [ ⟨.include_what_you_use, [], [ok_c cwd], "", 0⟩,
    ⟨.include_what_you_use, [], [ok_cpp cwd], "", 0⟩,
    ⟨.include_what_you_use, [], [err_c cwd], iwyu_err (err_c cwd) "<stdio.h>", 3⟩,
    ⟨.include_what_you_use, [], [err_cpp cwd], iwyu_err (err_cpp cwd) "<string>", 3⟩ ]

/-- The `oclint_err` template: `{0}` the file name, `{1}` the end-of-line
whitespace after the summary, `{2}` the `https_s` marker, `{3}` the
version parsed from `oclint --version`. -/
def oclint_err (f eol https_s ver : String) : String :=
  "\nCompiler Errors:\n(please be aware that these errors will prevent OCLint from analyzing this source code)\n\n" ++
  f ++ ":2:18: non-void function \x27main\x27 should return a value\n\nClang Static Analyzer Results:\n\n" ++
  f ++ ":2:18: non-void function \x27main\x27 should return a value\n\n\nOCLint Report\n\nSummary: TotalFiles=0 FilesWithViolations=0 P1=0 P2=0 P3=0" ++
  eol ++ "\n\n\n[OCLint (http" ++ https_s ++ "://oclint.org) v" ++ ver ++ "]\n"

/-- The single oclint argument set: version-dependent option spelling
(`--<option>` and the `https` link marker for versions `> "20"`,
`-<option>` plus `-no-analytics` otherwise), then
`oclint_arg_sets[0] += ["--", "-std=c18"]`. -/
def oclint_arg_set (oclint_choco_version : String) : List String :=
  (if pyStrLt "20" oclint_choco_version then
    ["--enable-global-analysis", "--enable-clang-static-analyzer"]
  else
    ["-enable-global-analysis", "-enable-clang-static-analyzer", "-no-analytics"]) ++
  ["--", "-std=c18"]

/-- The `https_s` marker inserted into the expected oclint output. -/
def oclint_https_s (oclint_choco_version : String) : String :=
  if pyStrLt "20" oclint_choco_version then "s" else ""

/-- `GeneratorT.generate_oclint_tests`: one argument set (adjusted per
file by `cpp_std_args`), expected outputs built from `oclint_err` with
`eol_whitespace = " "` and `oclint_ver` parsed from the external
`oclint --version` subprocess output, and the tool-native return codes
`oclint_retcodes = [0, 0, 6, 6]`. -/
def generate_oclint_tests (versions : Versions) (cwd oclint_ver : String) :
    List Scenario :=
  let a := oclint_arg_set versions.oclint
  let https_s := oclint_https_s versions.oclint
  [ ⟨.oclint, cpp_std_args (ok_c cwd) a, [ok_c cwd], "", 0⟩,
    ⟨.oclint, cpp_std_args (ok_cpp cwd) a, [ok_cpp cwd], "", 0⟩,
    ⟨.oclint, cpp_std_args (err_c cwd) a, [err_c cwd],
      oclint_err (err_c cwd) " " https_s oclint_ver, 6⟩,
    ⟨.oclint, cpp_std_args (err_cpp cwd) a, [err_cpp cwd],
      oclint_err (err_cpp cwd) " " https_s oclint_ver, 6⟩ ]

/-- `GeneratorT.generate_list_tests`: concatenates the no-diff multifile
scenarios over `[err_c, err_cpp]`, the formatter, clang-tidy, cppcheck
and cpplint scenarios, and — except on Windows (`os.name == "nt"`) — the
iwyu and oclint scenarios.  A cppcheck version-classification failure
aborts the whole construction. -/
def generate_list_tests (versions : Versions) (is_windows : Bool)
    (cwd oclint_ver : String) : Except String (List Scenario) :=
  (generate_cppcheck_tests versions.cppcheck cwd).map fun cppcheck_scenarios =>
    get_multifile_scenarios_no_diff cwd [err_c cwd, err_cpp cwd] ++
    generate_formatter_tests cwd ++
    generate_clang_tidy_tests cwd ++
    cppcheck_scenarios ++
    generate_cpplint_tests cwd ++
    (if is_windows then [] else
      generate_iwyu_tests cwd ++ generate_oclint_tests versions cwd oclint_ver)

end GeneratorT

/-! ## The test executor (`TestHooks`) -/

/-- The test function a scenario is dispatched to (its `test_type` entry,
called once per scenario by `TestHooks.test_run`).  `run_class_cmd` —
invoking the wrapper's in-process command object directly — is named in
the source's comments ("redundant, but available" / "breaking
compatibility with cls.run_class_cmd") but is not defined in the file and
is assigned to no scenario. -/
inductive TestType where
  | run_shell_cmd
  | run_class_cmd
  | run_integration_test
deriving DecidableEq, Repr

/-- One entry of `TestHooks.scenarios`: the description string and the
keyword dictionary handed to `test_run`. -/
structure TestScenario where
  desc : String
  test_type : TestType
  cmd : String
  args : List String
  files : List String
  expd_output : String
  expd_retcode : Nat
deriving DecidableEq, Repr

/-- The execution strategies the executor exercises for a scenario: it
calls exactly the scenario's `test_type` function
(`test_type(cmd_name, files, args, expd_output, expd_retcode)` in
`test_run`). -/
def strategies_exercised (t : TestScenario) : List TestType := [t.test_type]

/-- The Windows path munging `arg.replace("/", "\\\\")` (each `/` becomes
two backslash characters). -/
def winEscapeChars : List Char → List Char
  | [] => []
  | c :: rest =>
    if c = '/' then '\\' :: '\\' :: winEscapeChars rest
    else c :: winEscapeChars rest

/-- `arg.replace("/", "\\\\")` on strings. -/
def winEscape (s : String) : String := ⟨winEscapeChars s.data⟩

/-- The first half of `TestHooks.setup_class`: each generated scenario
`s = [cls, args, files, expd_output, expd_retcode]` becomes a table entry
with description
`" ".join([run_shell_cmd.__name__, s[0].command, " ".join(s[2]), " ".join(s[1])])`
(computed before the Windows path munging of `s[2]`) and
`test_type = cls.run_shell_cmd`. -/
def shell_scenarios (generated : List Scenario) (is_windows : Bool) :
    List TestScenario :=
  generated.map fun s =>
    { desc := String.intercalate " "
        ["run_shell_cmd", s.cls.command, String.intercalate " " s.files,
         String.intercalate " " s.args]
      test_type := .run_shell_cmd
      cmd := s.cls.command
      args := s.args
      files := if is_windows then s.files.map winEscape else s.files
      expd_output := s.expd_output
      expd_retcode := s.expd_retcode }

/-- One entry of the external `tests/table_tests_integration.json` table
(a file outside the available sources), before placeholder
substitution. -/
structure IntegrationEntry where
  command : String
  args : List String
  files : List String
  expd_output : String
  expd_retcode : Nat
deriving DecidableEq, Repr

/-- The second half of `TestHooks.setup_class`: each JSON entry has
`{repo_dir}` replaced by the working directory in its args and
`{test_dir}` by the scratch directory in its files (then Windows path
munging), and becomes a table entry with
`test_type = cls.run_integration_test`. -/
def integration_scenarios (table : List IntegrationEntry) (is_windows : Bool)
    (cwd tmpdir : String) : List TestScenario :=
  table.map fun e =>
    let args := e.args.map fun a => strReplaceAll a "\x7brepo_dir\x7d" cwd
    let files0 := e.files.map fun f => strReplaceAll f "\x7btest_dir\x7d" tmpdir
    let files := if is_windows then files0.map winEscape else files0
    { desc := String.intercalate " "
        ["run_integration_test", e.command ++ "-hook",
         String.intercalate " " files, String.intercalate " " args]
      test_type := .run_integration_test
      cmd := e.command
      args := args
      files := files
      expd_output := e.expd_output
      expd_retcode := e.expd_retcode }

/-- `TestHooks.setup_class`: the full scenario table — the generated
shell-command scenarios followed by the JSON-driven integration
scenarios. -/
def setup_class_scenarios (generated : List Scenario)
    (integration_table : List IntegrationEntry) (is_windows : Bool)
    (cwd tmpdir : String) : List TestScenario :=
  shell_scenarios generated is_windows ++
  integration_scenarios integration_table is_windows cwd tmpdir

/-- `TestHooks.determine_edit_in_place`: runtime check whether the
command/argument pair will edit files in place. -/
def determine_edit_in_place (cmd_name : String) (args : List String) : Bool :=
  let clang_format_in_place := cmd_name == "clang-format" && args.contains "-i"
  let clang_tidy_in_place := cmd_name == "clang-tidy" &&
    (args.contains "-fix" || args.contains "--fix-errors")
  let uncrustify_in_place := cmd_name == "uncrustify" && args.contains "--replace"
  clang_format_in_place || clang_tidy_in_place || uncrustify_in_place

/-- The observable actions of `TestHooks.test_run`. -/
inductive TestAction where
  | execute_scenario
  | restore_file (f : String)
deriving DecidableEq, Repr

/-- `TestHooks.test_run`: runs the scenario's test function, then — only
when `determine_edit_in_place(cmd_name, args)` holds and some target file
path contains the substring `"err.c"` — rewrites every target file with
its fixture content from `utils.test_file_strs`. -/
def test_run_actions (cmd_name : String) (args files : List String) :
    List TestAction :=
  let fix_in_place := determine_edit_in_place cmd_name args
  let has_err_file := files.any fun f => strContains f "err.c"
  let will_fix_in_place := fix_in_place && has_err_file
  TestAction.execute_scenario ::
    (if will_fix_in_place then files.map TestAction.restore_file else [])

/-- `TestHooks.run_shell_cmd`: the composed command line
`cmd_to_run = [cmd_name + "-hook", *all_args]` with
`all_args = files + args`. -/
def run_shell_cmd_command (cmd_name : String) (files args : List String) :
    List String :=
  (cmd_name ++ "-hook") :: (files ++ args)

/-! ## Output normalization and the integration-test check
(`TestHooks.run_integration_test`) -/

/-- Drop characters up to and including the next newline; `none` when the
remainder holds no newline (so the regex `\[INFO\].*\n` has no match
there). -/
def dropThroughNewline : List Char → Option (List Char)
  | [] => none
  | c :: rest => if c = '\n' then some rest else dropThroughNewline rest

/-- `re.sub(rb"\[INFO\].*\n", b"", output)` on character lists: delete
each `[INFO]`-to-end-of-line match, scanning left to right, with explicit
fuel. -/
def stripInfoAux : Nat → List Char → List Char
  | 0, l => l
  | _ + 1, [] => []
  | fuel + 1, c :: rest =>
    if charListIsPfx "[INFO]".data (c :: rest) then
      match dropThroughNewline (c :: rest) with
      | some r => stripInfoAux fuel r
      | none => c :: stripInfoAux fuel rest
    else c :: stripInfoAux fuel rest

/-- Get rid of pre-commit first-run info lines:
`re.sub(rb"\[INFO\].*\n", b"", output_actual)`. -/
def stripInfoLines (s : String) : String :=
  ⟨stripInfoAux s.data.length s.data⟩

/-- A maximal run of `[\d,]` characters at the head of the list, with the
remainder. -/
def digitCommaSplit (l : List Char) : List Char × List Char :=
  (l.takeWhile (fun c => c.isDigit || c = ','), l.dropWhile (fun c => c.isDigit || c = ','))

/-- `re.sub(rb"[\d,]+ warnings and ", b"", output)` on character lists:
at each position, a maximal non-empty `[\d,]` run followed by the literal
`" warnings and "` is deleted, scanning left to right, with explicit
fuel. -/
def stripWarningsAux : Nat → List Char → List Char
  | 0, l => l
  | _ + 1, [] => []
  | fuel + 1, c :: rest =>
    if c.isDigit || c = ',' then
      let (_, rem) := digitCommaSplit (c :: rest)
      if charListIsPfx " warnings and ".data rem then
        stripWarningsAux fuel (List.drop " warnings and ".data.length rem)
      else c :: stripWarningsAux fuel rest
    else c :: stripWarningsAux fuel rest

/-- The warning-count normalization
`re.sub(rb"[\d,]+ warnings and ", b"", output)`. -/
def stripWarningCounts (s : String) : String :=
  ⟨stripWarningsAux s.data.length s.data⟩

/-- The outcome of one integration run's checks, in the order the source
performs them. -/
inductive IntegrationOutcome where
  | harness_fault_empty_output
  | output_mismatch (expected actual : String)
  | retcode_mismatch (expected actual : Nat)
  | passed
deriving DecidableEq, Repr

/-- The checking tail of `TestHooks.run_integration_test`, given the
captured combined `stderr + stdout` of the `pre-commit run` subprocess:
substitute `{test_dir}` in the target output, strip `[INFO]` lines,
conditionally strip warning counts (an `err.cpp` target with
`-std=c++20`), then — in this order — fail as a harness fault when the
normalized output is empty, else compare output
(`utils.assert_equal(target_output, output_actual)`), else compare the
return code. -/
def run_integration_check (raw_output target_output : String)
    (files args : List String) (target_retcode actual_retcode : Nat)
    (tmpdir : String) : IntegrationOutcome :=
  let target_output := strReplaceAll target_output "\x7btest_dir\x7d" tmpdir
  let output_actual := stripInfoLines raw_output
  let output_actual :=
    if (files.any fun f => strEndsWith f "err.cpp") && args.contains "-std=c++20" then
      stripWarningCounts output_actual
    else output_actual
  if output_actual == "" then .harness_fault_empty_output
  else if target_output ≠ output_actual then
    .output_mismatch target_output output_actual
  else if target_retcode ≠ actual_retcode then
    .retcode_mismatch target_retcode actual_retcode
  else .passed

/-! ## The cppcheck wrapper (`hooks/cppcheck.py`) -/

/-- The observable events of a wrapper run: `self.run_command(...)`
(spawning one subprocess with the given argument vector; defined in the
shared `hooks.utils` base class, outside the available sources) and the
final `self.exit_on_error()` check. -/
inductive HookEvent where
  | run_command (cmd_args : List String)
  | exit_on_error
deriving DecidableEq, Repr

/-- The state of a constructed `CppcheckCmd`: `self.args` (the merged
argument list after `parse_args` and the `add_if_missing` defaults, built
by the `hooks.utils` base class) and `self.files`. -/
structure CppcheckCmd where
  args : List String
  files : List String
deriving DecidableEq, Repr

/-- `CppcheckCmd.run`: `for filename in self.files:
self.run_command([filename] + self.args)`, then `self.exit_on_error()`
(the leading `print` of the working directory is stdout logging, not an
event).  -/
def CppcheckCmd.run (c : CppcheckCmd) : List HookEvent :=
  (c.files.map fun filename => HookEvent.run_command ([filename] ++ c.args)) ++
  [HookEvent.exit_on_error]

/-- Whether an event is a subprocess spawn. -/
def HookEvent.isRunCommand : HookEvent → Bool
  | .run_command _ => true
  | .exit_on_error => false

/-- Whether an event is the exit-on-error check. -/
def HookEvent.isExitOnError : HookEvent → Bool
  | .run_command _ => false
  | .exit_on_error => true

/-! ## Statements of spec claims over the embedding -/

/-- The spec's cross-strategy claim, as stated: for every scenario the
executor exercises both the in-process command-object strategy
(`run_class_cmd`) and the installed entry-point subprocess strategy
(`run_shell_cmd`). -/
def crossStrategyClaim (ts : List TestScenario) : Prop :=
  ∀ t ∈ ts, TestType.run_class_cmd ∈ strategies_exercised t ∧
    TestType.run_shell_cmd ∈ strategies_exercised t

/-- A concrete built scenario table (cppcheck version classified as
`>= "1.89"`, posix platform, working directory `/r`). -/
def concreteShellTable : List TestScenario :=
  shell_scenarios
    ((GeneratorT.generate_list_tests ⟨"1.89", "0.13.1"⟩ false "/r" "0.13.1").toOption.getD [])
    false

/-- The spec's exit-code/fixture-agreement claim, as stated, for one
scenario: a clean target implies exit 0 with empty expected output, a
flawed target implies a non-zero exit with non-empty expected output. -/
def exitCodeFixtureClaim (cwd : String) (s : Scenario) : Prop :=
  ∀ f ∈ s.files,
    (isClean cwd f → s.expd_retcode = 0 ∧ s.expd_output = "") ∧
    (isFlawed cwd f → s.expd_retcode ≠ 0 ∧ s.expd_output ≠ "")

/-- The exit-code/fixture agreement the generated table actually has: a
clean target implies exit 0 with empty expected output; a flawed target
implies a non-zero exit, and additionally a non-empty expected output
unless the scenario passes `--no-diff` (which suppresses the diff). -/
def exitCodeFixtureAmended (cwd : String) (s : Scenario) : Prop :=
  ∀ f ∈ s.files,
    (isClean cwd f → s.expd_retcode = 0 ∧ s.expd_output = "") ∧
    (isFlawed cwd f → s.expd_retcode ≠ 0 ∧
      (s.args.contains "--no-diff" = false → s.expd_output ≠ ""))

/-! ## Helper lemmas -/

theorem str_app_cancel_left {p a b : String} (h : p ++ a = p ++ b) : a = b := by
  have hd := congrArg String.data h
  rw [String.data_append, String.data_append] at hd
  exact String.ext (List.append_cancel_left hd)

theorem str_app_ne_of_ne (p : String) {a b : String} (h : a ≠ b) :
    p ++ a ≠ p ++ b :=
  fun he => h (str_app_cancel_left he)

theorem str_app_ne_empty_right (a b : String) (h : b ≠ "") : a ++ b ≠ "" := by
  intro he
  apply h
  have hd := congrArg String.data he
  rw [String.data_append] at hd
  exact String.ext ((List.append_eq_nil.mp hd).2.trans rfl)

theorem not_clean_err_c (cwd : String) : ¬ isClean cwd (err_c cwd) := by
  rintro (h | h)
  · exact str_app_ne_of_ne (test_repo_dir cwd) (by decide) h
  · exact str_app_ne_of_ne (test_repo_dir cwd) (by decide) h

theorem not_clean_err_cpp (cwd : String) : ¬ isClean cwd (err_cpp cwd) := by
  rintro (h | h)
  · exact str_app_ne_of_ne (test_repo_dir cwd) (by decide) h
  · exact str_app_ne_of_ne (test_repo_dir cwd) (by decide) h

theorem not_flawed_ok_c (cwd : String) : ¬ isFlawed cwd (ok_c cwd) := by
  rintro (h | h)
  · exact str_app_ne_of_ne (test_repo_dir cwd) (by decide) h
  · exact str_app_ne_of_ne (test_repo_dir cwd) (by decide) h

theorem not_flawed_ok_cpp (cwd : String) : ¬ isFlawed cwd (ok_cpp cwd) := by
  rintro (h | h)
  · exact str_app_ne_of_ne (test_repo_dir cwd) (by decide) h
  · exact str_app_ne_of_ne (test_repo_dir cwd) (by decide) h

theorem charListIsPfx_append (n : List Char) :
    ∀ h1 h2 : List Char, charListIsPfx n h1 = true →
      charListIsPfx n (h1 ++ h2) = true := by
  induction n with
  | nil => intro h1 h2 _; rfl
  | cons a as ih =>
    intro h1 h2 hp
    cases h1 with
    | nil => simp [charListIsPfx] at hp
    | cons b bs =>
      simp only [charListIsPfx, Bool.and_eq_true] at hp ⊢
      exact ⟨hp.1, ih bs h2 hp.2⟩

theorem charListHasSub_append_left (n : List Char) :
    ∀ h1 h2 : List Char, charListHasSub n h1 = true →
      charListHasSub n (h1 ++ h2) = true := by
  intro h1
  induction h1 with
  | nil =>
    intro h2 hs
    cases n with
    | nil =>
      cases h2 with
      | nil => rfl
      | cons c r => simp [charListHasSub, charListIsPfx]
    | cons a as => simp [charListHasSub, charListIsPfx] at hs
  | cons c rest ih =>
    intro h2 hs
    simp only [charListHasSub, Bool.or_eq_true] at hs
    rcases hs with hs | hs
    · have := charListIsPfx_append n (c :: rest) h2 hs
      simp only [List.cons_append, charListHasSub, Bool.or_eq_true] at this ⊢
      simpa using Or.inl (by simpa using this)
    · simp only [List.cons_append, charListHasSub, Bool.or_eq_true]
      exact Or.inr (ih h2 hs)

theorem charListHasSub_append_right (n : List Char) :
    ∀ h1 h2 : List Char, charListHasSub n h2 = true →
      charListHasSub n (h1 ++ h2) = true := by
  intro h1
  induction h1 with
  | nil => intro h2 hs; simpa using hs
  | cons c rest ih =>
    intro h2 hs
    simp only [List.cons_append, charListHasSub, Bool.or_eq_true]
    exact Or.inr (ih h2 hs)

theorem strContains_append_left (a b n : String)
    (h : strContains a n = true) : strContains (a ++ b) n = true := by
  simp only [strContains, String.data_append]
  exact charListHasSub_append_left n.data a.data b.data h

theorem strContains_append_right (a b n : String)
    (h : strContains b n = true) : strContains (a ++ b) n = true := by
  simp only [strContains, String.data_append]
  exact charListHasSub_append_right n.data a.data b.data h

theorem iwyu_err_contains_retval (f inc : String) :
    strContains (GeneratorT.iwyu_err f inc) "should return a value" = true := by
  unfold GeneratorT.iwyu_err
  apply strContains_append_left
  apply strContains_append_left
  apply strContains_append_left
  apply strContains_append_left
  apply strContains_append_left
  apply strContains_append_left
  apply strContains_append_left
  apply strContains_append_left
  apply strContains_append_right
  decide

theorem clang_format_err_ne (f inc : String) :
    GeneratorT.clang_format_err f inc ≠ "" := by
  unfold GeneratorT.clang_format_err
  exact str_app_ne_empty_right _ _ (by decide)

theorem clang_tidy_err_str_ne (f : String) :
    GeneratorT.clang_tidy_err_str f ≠ "" := by
  unfold GeneratorT.clang_tidy_err_str
  exact str_app_ne_empty_right _ _ (by decide)

theorem cppcheck_err_old_ne (f : String) : GeneratorT.cppcheck_err_old f ≠ "" := by
  unfold GeneratorT.cppcheck_err_old
  exact str_app_ne_empty_right _ _ (by decide)

theorem cppcheck_err_new_ne (f : String) : GeneratorT.cppcheck_err_new f ≠ "" := by
  unfold GeneratorT.cppcheck_err_new
  exact str_app_ne_empty_right _ _ (by decide)

theorem cpplint_err_str_ne (f : String) : GeneratorT.cpplint_err_str f ≠ "" := by
  unfold GeneratorT.cpplint_err_str
  exact str_app_ne_empty_right _ _ (by decide)

theorem iwyu_err_ne (f inc : String) : GeneratorT.iwyu_err f inc ≠ "" := by
  unfold GeneratorT.iwyu_err
  exact str_app_ne_empty_right _ _ (by decide)

theorem oclint_err_ne (f eol https_s ver : String) :
    GeneratorT.oclint_err f eol https_s ver ≠ "" := by
  unfold GeneratorT.oclint_err
  exact str_app_ne_empty_right _ _ (by decide)

theorem wf_no_diff (cwd : String) :
    ∀ s ∈ GeneratorT.get_multifile_scenarios_no_diff cwd [err_c cwd, err_cpp cwd],
      exitCodeFixtureAmended cwd s := by
  intro s hs
  simp only [GeneratorT.get_multifile_scenarios_no_diff, List.mem_cons,
    List.not_mem_nil, or_false] at hs
  rcases hs with rfl | rfl <;>
  · intro f hf
    simp only [List.mem_cons, List.not_mem_nil, or_false] at hf
    rcases hf with rfl | rfl
    · exact ⟨fun hcl => absurd hcl (not_clean_err_c cwd),
        fun _ => ⟨by simp, fun hc => by simp at hc⟩⟩
    · exact ⟨fun hcl => absurd hcl (not_clean_err_cpp cwd),
        fun _ => ⟨by simp, fun hc => by simp at hc⟩⟩

theorem wf_clang_tidy (cwd : String) :
    ∀ s ∈ GeneratorT.generate_clang_tidy_tests cwd, exitCodeFixtureAmended cwd s := by
  intro s hs
  simp only [GeneratorT.generate_clang_tidy_tests, List.mem_append, List.mem_map] at hs
  rcases hs with ((⟨a, _, rfl⟩ | ⟨a, _, rfl⟩) | ⟨a, _, rfl⟩) | ⟨a, _, rfl⟩ <;>
  · intro f hf
    simp only [List.mem_singleton] at hf
    subst hf
    constructor
    · intro hcl
      first
        | exact ⟨rfl, rfl⟩
        | exact absurd hcl (not_clean_err_c cwd)
        | exact absurd hcl (not_clean_err_cpp cwd)
    · intro hfl
      first
        | exact absurd hfl (not_flawed_ok_c cwd)
        | exact absurd hfl (not_flawed_ok_cpp cwd)
        | exact ⟨by simp, fun _ => clang_tidy_err_str_ne _⟩

theorem wf_cppcheck (v cwd : String) (L : List Scenario)
    (hL : GeneratorT.generate_cppcheck_tests v cwd = .ok L) :
    ∀ s ∈ L, exitCodeFixtureAmended cwd s := by
  unfold GeneratorT.generate_cppcheck_tests at hL
  have main : ∀ tmpl : String → String, (∀ f, tmpl f ≠ "") →
      ∀ s ∈ [ (⟨.cppcheck, [], [ok_c cwd], "", 0⟩ : Scenario),
        ⟨.cppcheck, [], [ok_cpp cwd], "", 0⟩,
        ⟨.cppcheck, [], [err_c cwd], tmpl (err_c cwd), 1⟩,
        ⟨.cppcheck, [], [err_cpp cwd], tmpl (err_cpp cwd), 1⟩ ],
        exitCodeFixtureAmended cwd s := by
    intro tmpl htmpl s hs
    simp only [List.mem_cons, List.not_mem_nil, or_false] at hs
    rcases hs with rfl | rfl | rfl | rfl <;>
    · intro f hf
      simp only [List.mem_singleton] at hf
      subst hf
      constructor
      · intro hcl
        first
          | exact ⟨rfl, rfl⟩
          | exact absurd hcl (not_clean_err_c cwd)
          | exact absurd hcl (not_clean_err_cpp cwd)
      · intro hfl
        first
          | exact absurd hfl (not_flawed_ok_c cwd)
          | exact absurd hfl (not_flawed_ok_cpp cwd)
          | exact ⟨by simp, fun _ => htmpl _⟩
  split at hL
  · cases hL
    exact main _ (fun f => cppcheck_err_old_ne f)
  · split at hL
    · cases hL
      exact main _ (fun f => cppcheck_err_new_ne f)
    · cases hL

theorem wf_cpplint (cwd : String) :
    ∀ s ∈ GeneratorT.generate_cpplint_tests cwd, exitCodeFixtureAmended cwd s := by
  intro s hs
  simp only [GeneratorT.generate_cpplint_tests, List.mem_cons, List.not_mem_nil,
    or_false] at hs
  rcases hs with rfl | rfl | rfl | rfl <;>
  · intro f hf
    simp only [List.mem_singleton] at hf
    subst hf
    constructor
    · intro hcl
      first
        | exact ⟨rfl, rfl⟩
        | exact absurd hcl (not_clean_err_c cwd)
        | exact absurd hcl (not_clean_err_cpp cwd)
    · intro hfl
      first
        | exact absurd hfl (not_flawed_ok_c cwd)
        | exact absurd hfl (not_flawed_ok_cpp cwd)
        | exact ⟨by simp, fun _ => cpplint_err_str_ne _⟩

theorem wf_iwyu (cwd : String) :
    ∀ s ∈ GeneratorT.generate_iwyu_tests cwd, exitCodeFixtureAmended cwd s := by
  intro s hs
  simp only [GeneratorT.generate_iwyu_tests, List.mem_cons, List.not_mem_nil,
    or_false] at hs
  rcases hs with rfl | rfl | rfl | rfl <;>
  · intro f hf
    simp only [List.mem_singleton] at hf
    subst hf
    constructor
    · intro hcl
      first
        | exact ⟨rfl, rfl⟩
        | exact absurd hcl (not_clean_err_c cwd)
        | exact absurd hcl (not_clean_err_cpp cwd)
    · intro hfl
      first
        | exact absurd hfl (not_flawed_ok_c cwd)
        | exact absurd hfl (not_flawed_ok_cpp cwd)
        | exact ⟨by simp, fun _ => iwyu_err_ne _ _⟩

theorem wf_oclint (versions : Versions) (cwd oclint_ver : String) :
    ∀ s ∈ GeneratorT.generate_oclint_tests versions cwd oclint_ver,
      exitCodeFixtureAmended cwd s := by
  intro s hs
  simp only [GeneratorT.generate_oclint_tests, List.mem_cons, List.not_mem_nil,
    or_false] at hs
  rcases hs with rfl | rfl | rfl | rfl <;>
  · intro f hf
    simp only [List.mem_singleton] at hf
    subst hf
    constructor
    · intro hcl
      first
        | exact ⟨rfl, rfl⟩
        | exact absurd hcl (not_clean_err_c cwd)
        | exact absurd hcl (not_clean_err_cpp cwd)
    · intro hfl
      first
        | exact absurd hfl (not_flawed_ok_c cwd)
        | exact absurd hfl (not_flawed_ok_cpp cwd)
        | exact ⟨by simp, fun _ => oclint_err_ne _ _ _ _⟩

/-- Claim C4: for every invocation of the cppcheck wrapper run operation
with file list `fs`, the wrapper spawns exactly one subprocess per file of
`fs`, in the order of `fs`, each subprocess receiving that single file
together with the shared merged argument list (never all files in one
subprocess), and performs the exit-on-error check once after all
subprocesses have completed. -/
theorem cppcheck_run_per_file (c : CppcheckCmd) :
    (∀ i (h : i < c.files.length),
        c.run[i]? = some (HookEvent.run_command ([c.files[i]] ++ c.args))) ∧
    c.run.countP (fun e => e.isRunCommand) = c.files.length ∧
    c.run.countP (fun e => e.isExitOnError) = 1 ∧
    c.run.getLast? = some HookEvent.exit_on_error := by
  refine ⟨?_, ?_, ?_, ?_⟩
  · intro i h
    rw [CppcheckCmd.run, List.getElem?_append_left (by simpa using h),
      List.getElem?_map, List.getElem?_eq_getElem h]
    rfl
  · simp [CppcheckCmd.run, List.countP_append, List.countP_map, Function.comp,
      HookEvent.isRunCommand, HookEvent.isExitOnError, List.countP_cons]
  · simp [CppcheckCmd.run, List.countP_append, List.countP_map, Function.comp,
      HookEvent.isRunCommand, HookEvent.isExitOnError, List.countP_cons]
  · simp [CppcheckCmd.run]

theorem cppcheck_run_per_file_witness :
    (CppcheckCmd.mk ["-q"] ["a.c", "b.c"]).run[1]? =
      some (HookEvent.run_command (["b.c"] ++ ["-q"])) :=
  (cppcheck_run_per_file ⟨["-q"], ["a.c", "b.c"]⟩).1 1 (by decide)

/-- Claim C6: if the installed cppcheck tool version string cannot be
classified into a known output-format bucket (neither `<= "1.88"` nor
`>= "1.89"` under the comparison used), the scenario table builder fails
loudly (the construction yields an error, the `AttributeError` raised by
calling `format` on the bytes fallback) and never yields a scenario list
with some default expected-output template. -/
theorem cppcheck_version_unclassifiable_fails (v cwd : String)
    (h1 : pyStrLe v "1.88" = false) (h2 : pyStrLe "1.89" v = false) :
    GeneratorT.generate_cppcheck_tests v cwd =
      .error GeneratorT.cppcheck_version_error ∧
    ∀ L : List Scenario, GeneratorT.generate_cppcheck_tests v cwd ≠ .ok L := by
  have he : GeneratorT.generate_cppcheck_tests v cwd =
      .error GeneratorT.cppcheck_version_error := by
    simp [GeneratorT.generate_cppcheck_tests, h1, h2, Except.map]
  exact ⟨he, fun L hL => by rw [he] at hL; cases hL⟩

theorem cppcheck_version_unclassifiable_fails_witness :
    GeneratorT.generate_cppcheck_tests "1.880" "/r" =
      .error GeneratorT.cppcheck_version_error :=
  (cppcheck_version_unclassifiable_fails "1.880" "/r" (by decide) (by decide)).1

/-- Claim C8, counterexample: the claim states the command line is the
hook name followed by the tool-native flags and then the target files;
the composed command line for a concrete scenario places the target file
before the flag, refuting the claimed order. -/
theorem run_shell_cmd_flags_first_counterexample :
    run_shell_cmd_command "clang-format" ["/r/tests/test_repo/err.c"] ["--style=google"] ≠
      ["clang-format-hook", "--style=google", "/r/tests/test_repo/err.c"] ∧
    run_shell_cmd_command "clang-format" ["/r/tests/test_repo/err.c"] ["--style=google"] =
      ["clang-format-hook", "/r/tests/test_repo/err.c", "--style=google"] :=
  ⟨by decide, rfl⟩

/-- Claim C8, amended: for every scenario executed through the installed
command-line entry point, the command line is composed as the hook name
(`cmd + "-hook"`) followed by the target file paths and then the
tool-native flags — files precede flags (`all_args = files + args`). -/
theorem run_shell_cmd_files_before_flags (t : TestScenario) :
    run_shell_cmd_command t.cmd t.files t.args = [t.cmd ++ "-hook"] ++ t.files ++ t.args :=
  rfl

/-- Claim C9: in every integration run, if the captured combined output
is empty after stripping informational `[INFO]` lines, the executor fails
with the distinct harness-fault outcome, whatever the expected output,
the expected return code and the actual return code are — before and
separately from any expected-versus-actual comparison. -/
theorem integration_empty_output_is_harness_fault (raw target : String)
    (files args : List String) (trc arc : Nat) (tmpdir : String)
    (h : stripInfoLines raw = "") :
    run_integration_check raw target files args trc arc tmpdir =
      IntegrationOutcome.harness_fault_empty_output := by
  unfold run_integration_check
  rw [h]
  have hw : stripWarningCounts "" = "" := rfl
  simp [hw]

theorem integration_empty_output_is_harness_fault_witness :
    run_integration_check "[INFO] initializing environment\n" "some expected output"
      ["/t/err.cpp"] ["-std=c++20"] 1 1 "/t" =
      IntegrationOutcome.harness_fault_empty_output :=
  integration_empty_output_is_harness_fault _ _ _ _ _ _ _ (by decide)

/-- Claim C7, counterexample: the claim states that after every scenario
that runs an in-place-editing tool the executor restores each target
file; but for an in-place clang-format scenario whose target is the clean
fixture `ok.c` the executor performs no restoration (restoration also
requires a target path containing `"err.c"`). -/
theorem restore_after_in_place_counterexample :
    ¬ (∀ (cmd_name : String) (args files : List String),
        determine_edit_in_place cmd_name args = true →
        test_run_actions cmd_name args files =
          TestAction.execute_scenario :: files.map TestAction.restore_file) := by
  intro h
  have hx := h "clang-format" ["--style=google", "-i"] ["/r/tests/test_repo/ok.c"]
    (by decide)
  exact absurd hx (by decide)

/-- Claim C7, amended: after every scenario that runs an in-place-editing
tool and whose target files include a flawed fixture (a path containing
`"err.c"`, which covers `err.c` and `err.cpp`), the executor rewrites
every target file with its fixture-defined original before the next
scenario runs; in-place scenarios over clean fixtures only are not
restored (the tools leave clean fixtures unmodified). -/
theorem restore_after_in_place_err_scenarios (cmd_name : String)
    (args files : List String)
    (hfix : determine_edit_in_place cmd_name args = true)
    (herr : (files.any fun f => strContains f "err.c") = true) :
    test_run_actions cmd_name args files =
      TestAction.execute_scenario :: files.map TestAction.restore_file := by
  simp [test_run_actions, hfix, herr]

theorem restore_after_in_place_err_scenarios_witness :
    test_run_actions "clang-tidy"
        ["-quiet", "-checks=clang-diagnostic-return-type", "-fix"]
        ["/r/tests/test_repo/err.c"] =
      TestAction.execute_scenario ::
        (["/r/tests/test_repo/err.c"].map TestAction.restore_file) :=
  restore_after_in_place_err_scenarios _ _ _ (by decide) (by decide)

/-- Claim C10: after running any scenario, the executor rewrites the
target files to their fixture originals if and only if (1) the
command/args pair matches one of the three in-place spellings —
clang-format with `-i`, clang-tidy with `-fix` or `--fix-errors`,
uncrustify with `--replace` — and (2) at least one target path contains
the substring `"err.c"` (which also matches `err.cpp` paths); for any
other spelling or file names the only action is executing the scenario. -/
theorem test_run_restore_characterization (cmd_name : String)
    (args files : List String) :
    ((∃ f, TestAction.restore_file f ∈ test_run_actions cmd_name args files) ↔
      (((cmd_name = "clang-format" ∧ "-i" ∈ args) ∨
        (cmd_name = "clang-tidy" ∧ ("-fix" ∈ args ∨ "--fix-errors" ∈ args)) ∨
        (cmd_name = "uncrustify" ∧ "--replace" ∈ args)) ∧
       ∃ f ∈ files, strContains f "err.c" = true)) ∧
    ((determine_edit_in_place cmd_name args &&
        files.any fun f => strContains f "err.c") = false →
      test_run_actions cmd_name args files = [TestAction.execute_scenario]) ∧
    strContains "tests/test_repo/err.cpp" "err.c" = true := by
  have hdet : determine_edit_in_place cmd_name args = true ↔
      ((cmd_name = "clang-format" ∧ "-i" ∈ args) ∨
       (cmd_name = "clang-tidy" ∧ ("-fix" ∈ args ∨ "--fix-errors" ∈ args)) ∨
       (cmd_name = "uncrustify" ∧ "--replace" ∈ args)) := by
    simp [determine_edit_in_place, or_assoc]
  refine ⟨?_, ?_, by decide⟩
  · constructor
    · rintro ⟨f, hf⟩
      simp only [test_run_actions] at hf
      by_cases hc : (determine_edit_in_place cmd_name args &&
          files.any fun f => strContains f "err.c") = true
      · rw [Bool.and_eq_true] at hc
        exact ⟨hdet.mp hc.1, List.any_eq_true.mp hc.2⟩
      · rw [if_neg hc] at hf
        simp at hf
    · rintro ⟨hcond, hex⟩
      have hc : (determine_edit_in_place cmd_name args &&
          files.any fun f => strContains f "err.c") = true :=
        by rw [Bool.and_eq_true]; exact ⟨hdet.mpr hcond, List.any_eq_true.mpr hex⟩
      obtain ⟨f, hfmem, _⟩ := hex
      refine ⟨f, ?_⟩
      simp only [test_run_actions, hc, if_true]
      exact List.mem_cons_of_mem _ (List.mem_map_of_mem _ hfmem)
  · intro hc
    simp only [test_run_actions, hc]
    rfl

theorem test_run_restore_characterization_witness :
    ((∃ f, TestAction.restore_file f ∈
        test_run_actions "uncrustify" ["--replace"] ["/r/tests/test_repo/err.cpp"]) ↔
      ((("uncrustify" = "clang-format" ∧ "-i" ∈ (["--replace"] : List String)) ∨
        ("uncrustify" = "clang-tidy" ∧
          ("-fix" ∈ (["--replace"] : List String) ∨ "--fix-errors" ∈ (["--replace"] : List String))) ∨
        ("uncrustify" = "uncrustify" ∧ "--replace" ∈ (["--replace"] : List String))) ∧
       ∃ f ∈ ["/r/tests/test_repo/err.cpp"], strContains f "err.c" = true)) :=
  (test_run_restore_characterization "uncrustify" ["--replace"]
    ["/r/tests/test_repo/err.cpp"]).1

/-- Claim C1, counterexample: the claim states that for every generated
scenario the executor exercises both the in-process command-object
strategy and the installed entry-point strategy; but in a concrete built
table every scenario is wired to the single `run_shell_cmd` strategy, so
the in-process strategy (`run_class_cmd`) is exercised for no scenario. -/
theorem cross_strategy_counterexample : ¬ crossStrategyClaim concreteShellTable := by
  intro h
  have hh : concreteShellTable.head?.map (fun t => t.test_type) =
      some TestType.run_shell_cmd := by rfl
  cases htab : concreteShellTable with
  | nil => rw [htab] at hh; simp at hh
  | cons a l =>
    rw [htab] at hh
    simp only [List.head?_cons, Option.map_some'] at hh
    have h0 := (h a (by rw [htab]; exact List.mem_cons_self a l)).1
    simp only [strategies_exercised, List.mem_singleton] at h0
    rw [← h0] at hh
    simp at hh

/-- Claim C1, amended: every scenario produced by the scenario table
builder is wired to exactly one execution strategy — invoking the
installed command-line entry point as a subprocess (`run_shell_cmd`);
the in-process command-object strategy is noted in the source as
redundant and is not exercised. -/
theorem shell_scenarios_single_strategy (generated : List Scenario)
    (is_windows : Bool) (t : TestScenario)
    (ht : t ∈ shell_scenarios generated is_windows) :
    strategies_exercised t = [TestType.run_shell_cmd] := by
  obtain ⟨s, -, rfl⟩ := List.mem_map.mp ht
  rfl

theorem shell_scenarios_single_strategy_witness :
    strategies_exercised
      { desc := "run_shell_cmd cppcheck f.c ", test_type := .run_shell_cmd,
        cmd := "cppcheck", args := [], files := ["f.c"], expd_output := "",
        expd_retcode := 0 } = [TestType.run_shell_cmd] :=
  shell_scenarios_single_strategy [⟨CmdClass.cppcheck, [], ["f.c"], "", 0⟩]
    false _ (by decide)

/-- Claim C3: the wrappers for tools with native multi-valued exit codes
pass those codes through uncollapsed — every include-what-you-use
scenario over a flawed fixture expects exit code exactly 3 (not collapsed
to 1) with expected output containing the literal substring
`should return a value`, every oclint scenario over a flawed fixture
expects exit code exactly 6, and both expect exit code 0 over clean
fixtures. -/
theorem iwyu_oclint_native_exit_codes (cwd oclint_ver : String) (versions : Versions) :
    (∀ s ∈ GeneratorT.generate_iwyu_tests cwd, ∀ f ∈ s.files,
      (isFlawed cwd f → s.expd_retcode = 3 ∧
        strContains s.expd_output "should return a value" = true) ∧
      (isClean cwd f → s.expd_retcode = 0)) ∧
    (∀ s ∈ GeneratorT.generate_oclint_tests versions cwd oclint_ver, ∀ f ∈ s.files,
      (isFlawed cwd f → s.expd_retcode = 6) ∧
      (isClean cwd f → s.expd_retcode = 0)) := by
  constructor
  · intro s hs
    simp only [GeneratorT.generate_iwyu_tests, List.mem_cons, List.not_mem_nil,
      or_false] at hs
    rcases hs with rfl | rfl | rfl | rfl <;>
    · intro f hf
      simp only [List.mem_singleton] at hf
      subst hf
      constructor
      · intro hfl
        first
          | exact absurd hfl (not_flawed_ok_c cwd)
          | exact absurd hfl (not_flawed_ok_cpp cwd)
          | exact ⟨rfl, iwyu_err_contains_retval _ _⟩
      · intro hcl
        first
          | rfl
          | exact absurd hcl (not_clean_err_c cwd)
          | exact absurd hcl (not_clean_err_cpp cwd)
  · intro s hs
    simp only [GeneratorT.generate_oclint_tests, List.mem_cons, List.not_mem_nil,
      or_false] at hs
    rcases hs with rfl | rfl | rfl | rfl <;>
    · intro f hf
      simp only [List.mem_singleton] at hf
      subst hf
      constructor
      · intro hfl
        first
          | exact absurd hfl (not_flawed_ok_c cwd)
          | exact absurd hfl (not_flawed_ok_cpp cwd)
          | exact rfl
      · intro hcl
        first
          | rfl
          | exact absurd hcl (not_clean_err_c cwd)
          | exact absurd hcl (not_clean_err_cpp cwd)

theorem iwyu_oclint_native_exit_codes_witness :
    (3 : Nat) = 3 ∧
    strContains (GeneratorT.iwyu_err (err_c "/r") "<stdio.h>")
      "should return a value" = true :=
  ((iwyu_oclint_native_exit_codes "/r" "0.13.1" ⟨"1.89", "0.13.1"⟩).1
    ⟨CmdClass.include_what_you_use, [], [err_c "/r"],
      GeneratorT.iwyu_err (err_c "/r") "<stdio.h>", 3⟩
    (by simp [GeneratorT.generate_iwyu_tests]) (err_c "/r") (by simp)).1
    (Or.inl rfl)

theorem wf_formatter (cwd : String) :
    ∀ s ∈ GeneratorT.generate_formatter_tests cwd, exitCodeFixtureAmended cwd s := by
  intro s hs
  simp only [GeneratorT.generate_formatter_tests, List.mem_cons, List.not_mem_nil,
    or_false] at hs
  rcases hs with rfl|rfl|rfl|rfl|rfl|rfl|rfl|rfl|rfl|rfl|rfl|rfl|rfl|rfl|rfl|rfl <;>
  · intro f hf
    simp only [List.mem_singleton] at hf
    subst hf
    constructor
    · intro hcl
      first
        | exact ⟨rfl, rfl⟩
        | exact absurd hcl (not_clean_err_c cwd)
        | exact absurd hcl (not_clean_err_cpp cwd)
    · intro hfl
      first
        | exact absurd hfl (not_flawed_ok_c cwd)
        | exact absurd hfl (not_flawed_ok_cpp cwd)
        | exact ⟨by simp, fun _ => clang_format_err_ne _ _⟩

/-- Claim C2, counterexample: the claim states every generated scenario
over a flawed fixture has non-empty expected output; but the first
scenario of a concrete generated table (the clang-format `--no-diff`
multifile scenario over `err.c`/`err.cpp`) has expected return code 1
with empty expected output. -/
theorem exit_code_fixture_counterexample :
    ¬ (∀ s ∈ (GeneratorT.generate_list_tests ⟨"1.89", "0.13.1"⟩ false "/r"
          "0.13.1").toOption.getD [],
        exitCodeFixtureClaim "/r" s) := by
  intro h
  have hhead : ((GeneratorT.generate_list_tests ⟨"1.89", "0.13.1"⟩ false "/r"
        "0.13.1").toOption.getD []).head? =
      some ⟨CmdClass.clang_format, ["--style=google", "--no-diff"],
        [err_c "/r", err_cpp "/r"], "", 1⟩ := by rfl
  cases htab : (GeneratorT.generate_list_tests ⟨"1.89", "0.13.1"⟩ false "/r"
      "0.13.1").toOption.getD [] with
  | nil => rw [htab] at hhead; cases hhead
  | cons a l =>
    rw [htab] at hhead
    simp only [List.head?_cons, Option.some_inj] at hhead
    subst hhead
    have hc := h _ (by rw [htab]; exact List.mem_cons_self _ _)
    have h2 := (hc (err_c "/r") (by simp)).2 (Or.inl rfl)
    exact h2.2 rfl

/-- Claim C2, amended: for every scenario in the generated table, a clean
fixture target implies expected exit code 0 with empty expected output,
and a flawed fixture target implies a tool-specific non-zero expected
exit code, with non-empty expected output except in the `--no-diff`
scenarios (where diff output is deliberately suppressed and the expected
output is empty). -/
theorem exit_code_fixture_amended_holds (versions : Versions) (is_windows : Bool)
    (cwd oclint_ver : String) (L : List Scenario)
    (hL : GeneratorT.generate_list_tests versions is_windows cwd oclint_ver = .ok L) :
    ∀ s ∈ L, exitCodeFixtureAmended cwd s := by
  unfold GeneratorT.generate_list_tests at hL
  cases hcp : GeneratorT.generate_cppcheck_tests versions.cppcheck cwd with
  | error e => rw [hcp] at hL; simp [Except.map] at hL
  | ok cpps =>
    rw [hcp] at hL
    simp only [Except.map, Except.ok.injEq] at hL
    intro s hs
    rw [← hL] at hs
    simp only [List.mem_append] at hs
    rcases hs with ((((hs | hs) | hs) | hs) | hs) | hs
    · exact wf_no_diff cwd s hs
    · exact wf_formatter cwd s hs
    · exact wf_clang_tidy cwd s hs
    · exact wf_cppcheck versions.cppcheck cwd cpps hcp s hs
    · exact wf_cpplint cwd s hs
    · cases is_windows with
      | true => simp at hs
      | false =>
        simp only [if_neg Bool.false_ne_true, List.mem_append] at hs
        rcases hs with hs | hs
        · exact wf_iwyu cwd s hs
        · exact wf_oclint versions cwd oclint_ver s hs

set_option maxRecDepth 100000 in
theorem exit_code_fixture_amended_holds_witness :
    (1 : Nat) ≠ 0 ∧
    ((["--style=google"] : List String).contains "--no-diff" = false →
      GeneratorT.clang_format_err (err_c "/r") "<stdio.h>" ≠ "") := by
  have h := exit_code_fixture_amended_holds ⟨"1.89", "0.13.1"⟩ false "/r" "0.13.1"
    _ rfl
    ⟨CmdClass.clang_format, ["--style=google"], [err_c "/r"],
      GeneratorT.clang_format_err (err_c "/r") "<stdio.h>", 1⟩
    (by decide) (err_c "/r") (by simp)
  exact h.2 (Or.inl rfl)

/-- Claim C5: the generated formatter table contains the clang-format
scenario with arguments `["--style=google"]` against the flawed C fixture
whose expected output is exactly the unified diff with header
`<filename>` / `====================` / `--- original` / `+++ formatted`
converting the line `int main(){int i;return;}` into the 4-line braced
form and whose expected exit code is 1; against the clean fixture the
expected output is empty with exit code 0; and the uncrustify scenarios
(with its config-file arguments) share the same expected output and exit
codes. -/
theorem formatter_google_diff_scenarios (cwd : String) :
    Scenario.mk CmdClass.clang_format ["--style=google"] [err_c cwd]
        (GeneratorT.clang_format_err (err_c cwd) "<stdio.h>") 1 ∈
      GeneratorT.generate_formatter_tests cwd ∧
    GeneratorT.clang_format_err (err_c cwd) "<stdio.h>" =
      err_c cwd ++ "\n====================\n--- original\n\n+++ formatted\n\n@@ -1,2 +1,5 @@\n\n #include <stdio.h>\n-int main()\x7bint i;return;\x7d\n+int main() \x7b\n+  int i;\n+  return;\n+\x7d\n" ∧
    Scenario.mk CmdClass.clang_format ["--style=google"] [ok_c cwd] "" 0 ∈
      GeneratorT.generate_formatter_tests cwd ∧
    Scenario.mk CmdClass.uncrustify ["-c", uncrustify_defaults_path cwd] [err_c cwd]
        (GeneratorT.clang_format_err (err_c cwd) "<stdio.h>") 1 ∈
      GeneratorT.generate_formatter_tests cwd ∧
    Scenario.mk CmdClass.uncrustify ["-c", uncrustify_defaults_path cwd] [ok_c cwd] "" 0 ∈
      GeneratorT.generate_formatter_tests cwd := by
  refine ⟨?_, ?_, ?_, ?_, ?_⟩
  · simp [GeneratorT.generate_formatter_tests]
  · simp only [GeneratorT.clang_format_err, String.append_assoc]
    congr 1
  · simp [GeneratorT.generate_formatter_tests]
  · simp [GeneratorT.generate_formatter_tests]
  · simp [GeneratorT.generate_formatter_tests]

end PreCommitHooks
